import Mathlib

/-!
Shallow embedding of the `medit` JSON configuration subsystem
(`src/microedit/config.py` and `src/microedit/config_validators.py`).

Python runtime values that can appear in a config (the values produced by
`json.loads`, plus the kinds of schema defaults handled by
`_validate_like_default`: booleans, ints, floats, strings, lists, tuples,
mappings, `None`) are embedded as the inductive `PyVal`.  Floats are carried
as exact fractions `num / den`; the repository's schema contains no float
option, so float rounding behaviour is never exercised by any claim.

Exceptions are embedded as `Except PyError`, with one constructor per
exception class the source distinguishes:
`ConfigError` (defined in config.py, carries an optional path),
`ValueError` (raised by the field validators),
`json.JSONDecodeError` (raised by `json.load`; in Python this is a subclass
of `ValueError`), and `OSError` (file-system failures).
-/

inductive PyVal where
  | none
  | bool (b : Bool)
  | int (n : Int)
  | float (num : Int) (den : Nat)
  | str (s : String)
  | list (xs : List PyVal)
  | tuple (xs : List PyVal)
  | dict (kvs : List (String × PyVal))
  deriving Repr

inductive PyError where
  | configError (message : String) (path : Option String)
  | valueError (message : String)
  | jsonDecodeError (message : String)
  | osError (message : String)
  deriving Repr

/-- `dict.get(key)` on a Python dict embedded as an association list with
unique keys: the binding for `key`, if any. -/
def pyGet (kvs : List (String × PyVal)) (k : String) : Option PyVal :=
  (kvs.find? (fun kv => kv.1 == k)).map (fun kv => kv.2)

/-- `dict.get(key, dflt)`. -/
def pyGetD (kvs : List (String × PyVal)) (k : String) (dflt : PyVal) : PyVal :=
  match pyGet kvs k with
  | some v => v
  | Option.none => dflt

/-- Keys of a Python dict, in insertion order. -/
def pyKeys (kvs : List (String × PyVal)) : List String :=
  kvs.map (fun kv => kv.1)

/-- `d[k] = v` on a Python dict: replaces the value in place if the key is
present (keeping its position, as Python dicts do), else appends. -/
def dictSet (kvs : List (String × PyVal)) (k : String) (v : PyVal) :
    List (String × PyVal) :=
  match kvs with
  | [] => [(k, v)]
  | kv :: rest => if kv.1 == k then (k, v) :: rest else kv :: dictSet rest k v

/-- Code-point lexicographic `<=` on character lists. -/
def charListLe : List Char → List Char → Bool
  | [], _ => true
  | _ :: _, [] => false
  | a :: as, b :: bs =>
    if a.toNat < b.toNat then true
    else if b.toNat < a.toNat then false
    else charListLe as bs

/-- Python string `<=` (code-point lexicographic), as used by `sorted`. -/
def strLe (a b : String) : Bool := charListLe a.data b.data

def insertSortedStr (x : String) : List String → List String
  | [] => [x]
  | y :: ys => if strLe x y then x :: y :: ys else y :: insertSortedStr x ys

/-- Python `sorted` on a list of strings. -/
def sortStrings (l : List String) : List String := l.foldr insertSortedStr []

/-- Python `sorted(set(l))`: duplicates removed, then sorted. -/
def sortedDedup (l : List String) : List String := sortStrings l.dedup

/-- Naive substring test (Python's `needle in hay` on strings). -/
def containsSub : List Char → List Char → Bool
  | [], needle => needle.isEmpty
  | c :: cs, needle => needle.isPrefixOf (c :: cs) || containsSub cs needle

def strContains (hay needle : String) : Bool := containsSub hay.data needle.data

/-- Python truthiness of an optional string (`None` and `""` are falsy). -/
def truthyStr : Option String → Bool
  | some s => s ≠ ""
  | Option.none => false

/-- Python `a or b` on optional strings: `b` when `a` is falsy, else `a`. -/
def pyOrStr (a b : Option String) : Option String :=
  match a with
  | some s => if s = "" then b else some s
  | Option.none => b

/-- `label or field_name`, the display name used in validator messages
(config_validators.py: `display = label or field_name`). -/
def displayOf (label : Option String) (fname : String) : String :=
  match label with
  | some l => if l = "" then fname else l
  | Option.none => fname

/-!  ## Field validators (config_validators.py)

A `FieldValidator` is the embedding of the `FieldValidator` protocol:
`(value, default, *, path, field_name) -> value`, with raised exceptions
turned into `Except.error`.  Only the validators the claims exercise are
embedded: `validate_string` (attached to `commands.separator`) and
`validate_int`.
-/

def FieldValidator : Type :=
  PyVal → PyVal → Option String → String → Except PyError PyVal

/-- Embedding of `config_validators.validate_string` (lines 106-144).
Arguments, in order: `label`, `allow_empty`, `forbid_newlines`, `strip`,
`min_length`, `max_length`. -/
def validate_string (label : Option String)
    (allow_empty forbid_newlines strip : Bool)
    (min_length max_length : Option Nat) : FieldValidator :=
  fun value dflt _path field_name =>
    let value := match value with | .none => dflt | v => v
    let display := displayOf label field_name
    match value with
    | .str s0 =>
      let s := if strip then s0.trim else s0
      let newlineCheck : Except PyError PyVal :=
        if forbid_newlines && (s.data.contains (Char.ofNat 10) || s.data.contains (Char.ofNat 13)) then
          .error (.valueError (display ++ " must not contain newlines."))
        else .ok (.str s)
      let maxCheck : Except PyError PyVal :=
        match max_length with
        | some m =>
          if s.length > m then
            .error (.valueError
              (display ++ " must be at most " ++ toString m ++ " characters."))
          else newlineCheck
        | Option.none => newlineCheck
      let minCheck : Except PyError PyVal :=
        match min_length with
        | some m =>
          if s.length < m then
            .error (.valueError
              (display ++ " must be at least " ++ toString m ++ " characters."))
          else maxCheck
        | Option.none => maxCheck
      if !allow_empty && s == "" then
        .error (.valueError (display ++ " must not be empty."))
      else minCheck
    | _ => .error (.valueError (display ++ " must be a string."))

/-- Embedding of `config_validators.validate_int` (lines 48-73).  The Python
check `not isinstance(value, int) or isinstance(value, bool)` admits exactly
the `PyVal.int` constructor (booleans are a separate constructor here, just
as `isinstance(value, bool)` separates them in the source). -/
def validate_int (label : Option String)
    (min_value max_value : Option Int) : FieldValidator :=
  fun value dflt _path field_name =>
    let value := match value with | .none => dflt | v => v
    let display := displayOf label field_name
    match value with
    | .int n =>
      if (match min_value with | some m => decide (n < m) | Option.none => false) then
        .error (.valueError (display ++ " must be >= " ++
          (match min_value with | some m => toString m | Option.none => "") ++ "."))
      else if (match max_value with | some m => decide (n > m) | Option.none => false) then
        .error (.valueError (display ++ " must be <= " ++
          (match max_value with | some m => toString m | Option.none => "") ++ "."))
      else .ok (.int n)
    | _ => .error (.valueError (display ++ " must be an integer."))

/-!  ## Schema (the dataclasses `CommandsConfig` / `MeditConfig`)

`validate_config` walks the dataclass schema via `dataclasses.fields`: an
ordered list of sections, each an ordered list of options carrying a default
and the `"validators"` / `"validator"` metadata entries.  `OptionField` and
`SectionField` embed exactly the data that reflection yields.
-/

structure OptionField where
  name : String
  dflt : PyVal
  validatorsMeta : Option (List FieldValidator)
  validatorMeta : Option FieldValidator

structure SectionField where
  name : String
  options : List OptionField

/-- config.py lines 243-250: the `"validators"` metadata entry wins; else a
single `"validator"` entry gives a one-element tuple; else no validators. -/
def fieldValidatorsOf (o : OptionField) : List FieldValidator :=
  match o.validatorsMeta with
  | some vs => vs
  | Option.none =>
    match o.validatorMeta with
    | some v => [v]
    | Option.none => []

/-- The validator attached to `CommandsConfig.separator` (config.py lines
29-36): `validate_string(label="Command separator", allow_empty=False,
forbid_newlines=True)`. -/
def separatorValidator : FieldValidator :=
  validate_string (some "Command separator") false true false Option.none Option.none

/-- The schema of `MeditConfig`: one section `commands` holding one option
`separator` with default `","` and the validator above. -/
def meditSchema : List SectionField :=
  [{ name := "commands",
     options := [{ name := "separator", dflt := .str ",",
                   validatorsMeta := Option.none,
                   validatorMeta := some separatorValidator }] }]

/-- `MeditConfig()` — the all-defaults resolved config, as the section/option
tree of default values. -/
def defaultConfigObj : List (String × List (String × PyVal)) :=
  meditSchema.map (fun s => (s.name, s.options.map (fun o => (o.name, o.dflt))))

structure ConfigDiagnostics where
  path : Option String
  warnings : List String
  error : Option String
  deriving Repr

structure ConfigResult where
  config : List (String × List (String × PyVal))
  diagnostics : ConfigDiagnostics
  deriving Repr

/-- Embedding of `_validate_like_default` (config.py lines 155-193): generic
coercion of a raw value against the runtime type of the option's default.
The Python `match default` tries `bool()` before `int()` (bool is a subclass
of int); here the constructors are disjoint so each case is direct.  A
default of `None` hits the `case _` fall-through and passes the value
through unchanged. -/
def _validate_like_default (value dflt : PyVal) (path : Option String)
    (field_name : String) : Except PyError PyVal :=
  match value with
  | .none => .ok dflt
  | value =>
    match dflt with
    | .bool _ =>
      match value with
      | .bool b => .ok (.bool b)
      | _ => .error (.configError (field_name ++ " must be a boolean.") path)
    | .int _ =>
      match value with
      | .int n => .ok (.int n)
      | _ => .error (.configError (field_name ++ " must be an integer.") path)
    | .float _ _ =>
      match value with
      | .int n => .ok (.float n 1)
      | .float a b => .ok (.float a b)
      | _ => .error (.configError (field_name ++ " must be a number.") path)
    | .str _ =>
      match value with
      | .str s => .ok (.str s)
      | _ => .error (.configError (field_name ++ " must be a string.") path)
    | .list _ =>
      match value with
      | .list xs => .ok (.list xs)
      | _ => .error (.configError (field_name ++ " must be a list.") path)
    | .tuple _ =>
      match value with
      | .list xs => .ok (.tuple xs)
      | .tuple xs => .ok (.tuple xs)
      | _ => .error (.configError (field_name ++ " must be a list.") path)
    | .dict _ =>
      match value with
      | .dict kvs => .ok (.dict kvs)
      | _ => .error (.configError (field_name ++ " must be an object.") path)
    | .none => .ok value

/-- The validator chain of config.py lines 252-265: apply the validators in
declared order, threading each output into the next; `except ConfigError:
raise` re-raises config errors unchanged, `except ValueError as exc: raise
ConfigError(str(exc), path=path)` wraps value errors (including
`json.JSONDecodeError`, a `ValueError` subclass) with the source path. -/
def applyValidators : List FieldValidator → PyVal → PyVal → Option String →
    String → Except PyError PyVal
  | [], value, _, _, _ => .ok value
  | v :: rest, value, dflt, path, field_name =>
    match v value dflt path field_name with
    | .ok value2 => applyValidators rest value2 dflt path field_name
    | .error (.valueError msg) => .error (.configError msg path)
    | .error (.jsonDecodeError msg) => .error (.configError msg path)
    | .error e => .error e

/-- One iteration of the option loop (config.py lines 237-273): take the raw
value (or the schema default when the key is absent), then either run the
declared validator chain or fall back to `_validate_like_default`. -/
def resolveOption (section_name : String) (sdata : List (String × PyVal))
    (path : Option String) (o : OptionField) : Except PyError PyVal :=
  let field_name := section_name ++ "." ++ o.name
  let raw_value := pyGetD sdata o.name o.dflt
  let fvs := fieldValidatorsOf o
  if fvs.isEmpty then
    _validate_like_default raw_value o.dflt path field_name
  else
    applyValidators fvs raw_value o.dflt path field_name

/-- The option loop over a section's declared options, in declaration
order; the first error aborts (the raised exception propagates). -/
def buildOptions (section_name : String) (sdata : List (String × PyVal))
    (path : Option String) : List OptionField → Except PyError (List (String × PyVal))
  | [] => .ok []
  | o :: rest =>
    match resolveOption section_name sdata path o with
    | .ok v =>
      match buildOptions section_name sdata path rest with
      | .ok vs => .ok ((o.name, v) :: vs)
      | .error e => .error e
    | .error e => .error e

/-- One iteration of the section loop (config.py lines 211-275): fetch the
section's sub-mapping (absent or `null` becomes `{}`), reject non-mappings,
warn about unknown option keys (`sorted(set(...) - allowed)`, comma-joined),
then resolve each option.  Returns this section's warnings and its built
(name, options) pair. -/
def validateSection (data : List (String × PyVal)) (path : Option String)
    (s : SectionField) :
    Except PyError (List String × (String × List (String × PyVal))) :=
  let sval := pyGetD data s.name (.dict [])
  let sval : PyVal := match sval with | .none => .dict [] | v => v
  match sval with
  | .dict sdata =>
    let allowed := s.options.map (fun o => o.name)
    let unknown := sortedDedup ((pyKeys sdata).filter (fun k => !(allowed.contains k)))
    let warns :=
      if unknown.isEmpty then []
      else ["Unknown [" ++ s.name ++ "] keys: " ++ String.intercalate ", " unknown]
    match buildOptions s.name sdata path s.options with
    | .ok kwargs => .ok (warns, (s.name, kwargs))
    | .error e => .error e
  | _ => .error (.configError ("[" ++ s.name ++ "] must be a table/object.") path)

/-- The section loop over the schema's declared sections, accumulating
warnings in order. -/
def buildSections (data : List (String × PyVal)) (path : Option String) :
    List SectionField →
    Except PyError (List String × List (String × List (String × PyVal)))
  | [] => .ok ([], [])
  | s :: rest =>
    match validateSection data path s with
    | .ok (ws, sec) =>
      match buildSections data path rest with
      | .ok (ws2, secs) => .ok (ws ++ ws2, sec :: secs)
      | .error e => .error e
    | .error e => .error e

/-- Embedding of `validate_config` (config.py lines 196-281), generic over
the schema exactly as the source is generic over the dataclass fields.  The
root must be a mapping; unknown root keys become one combined warning;
sections are then processed in declaration order; on success the
diagnostics carry the path, the accumulated warnings, and no error. -/
def validate_config (schema : List SectionField) (data : PyVal)
    (path : Option String) : Except PyError ConfigResult :=
  match data with
  | .dict kvs =>
    let allowedRoot := schema.map (fun s => s.name)
    let unknownRoot := sortedDedup ((pyKeys kvs).filter (fun k => !(allowedRoot.contains k)))
    let rootWarns :=
      if unknownRoot.isEmpty then []
      else ["Unknown top-level keys: " ++ String.intercalate ", " unknownRoot]
    match buildSections kvs path schema with
    | .ok (sectionWarns, secs) =>
      .ok { config := secs,
            diagnostics := { path := path, warnings := rootWarns ++ sectionWarns,
                             error := Option.none } }
    | .error e => .error e
  | _ => .error (.configError "Config root must be a table/object." path)

/-!  ## JSON (the parts of Python's `json` module the loader uses)

`_load_json` uses `json.load` and `default_config_text` uses
`json.dumps(..., indent=2, sort_keys=True)`.  `json_loads` below is a
recursive-descent parser over the character list, fuelled by the input
length (every step consumes input, so the fuel never runs out on real
input); `json_dumps` is the pretty-printer.  Error messages mimic the
`json.JSONDecodeError` message heads; exponents and floats are parsed into
exact fractions.  Octal-free integer grammar, `\uXXXX` escapes and the
standard short escapes are supported; this covers every literal the
repository reads or writes.
-/

def jsonWs (c : Char) : Bool :=
  c = ' ' || c = Char.ofNat 10 || c = Char.ofNat 13 || c = Char.ofNat 9

def skipWs (cs : List Char) : List Char := cs.dropWhile jsonWs

def hexVal (c : Char) : Option Nat :=
  if '0' ≤ c ∧ c ≤ '9' then some (c.toNat - 48)
  else if 'a' ≤ c ∧ c ≤ 'f' then some (c.toNat - 87)
  else if 'A' ≤ c ∧ c ≤ 'F' then some (c.toNat - 55)
  else Option.none

/-- Parse the remainder of a JSON string literal (the opening quote already
consumed), returning the string and the rest of the input. -/
def parseStringRest : List Char → List Char → Except String (String × List Char)
  | _, [] => .error "Unterminated string"
  | acc, c :: cs =>
    if c = '"' then .ok (String.mk acc.reverse, cs)
    else if c = '\\' then
      match cs with
      | [] => .error "Unterminated string"
      | e :: cs2 =>
        if e = '"' then parseStringRest ('"' :: acc) cs2
        else if e = '\\' then parseStringRest ('\\' :: acc) cs2
        else if e = '/' then parseStringRest ('/' :: acc) cs2
        else if e = 'b' then parseStringRest (Char.ofNat 8 :: acc) cs2
        else if e = 'f' then parseStringRest (Char.ofNat 12 :: acc) cs2
        else if e = 'n' then parseStringRest (Char.ofNat 10 :: acc) cs2
        else if e = 'r' then parseStringRest (Char.ofNat 13 :: acc) cs2
        else if e = 't' then parseStringRest (Char.ofNat 9 :: acc) cs2
        else if e = 'u' then
          match cs2 with
          | h1 :: h2 :: h3 :: h4 :: cs3 =>
            match hexVal h1, hexVal h2, hexVal h3, hexVal h4 with
            | some a, some b, some c3, some d =>
              parseStringRest (Char.ofNat (((a * 16 + b) * 16 + c3) * 16 + d) :: acc) cs3
            | _, _, _, _ => .error "Invalid \\uXXXX escape"
          | _ => .error "Invalid \\uXXXX escape"
        else .error "Invalid \\escape"
    else parseStringRest (c :: acc) cs

def digitsToNat (ds : List Char) : Nat :=
  ds.foldl (fun n c => n * 10 + (c.toNat - 48)) 0

/-- Parse a JSON number starting at the given input (first char a digit or
`-`).  Integers become `PyVal.int`; a fraction or exponent produces an
exact `PyVal.float num den`. -/
def parseNumber (cs : List Char) : Except String (PyVal × List Char) :=
  let (negative, cs1) :=
    match cs with
    | '-' :: rest => (true, rest)
    | _ => (false, cs)
  let intDigits := cs1.takeWhile Char.isDigit
  let cs2 := cs1.dropWhile Char.isDigit
  if intDigits.isEmpty then .error "Expecting value"
  else
    let intPart : Int := Int.ofNat (digitsToNat intDigits)
    let (fracDigits, cs3) :=
      match cs2 with
      | '.' :: rest => (rest.takeWhile Char.isDigit, rest.dropWhile Char.isDigit)
      | _ => ([], cs2)
    let hasFrac := match cs2 with | '.' :: _ => true | _ => false
    if hasFrac ∧ fracDigits.isEmpty then .error "Expecting value"
    else
      let (hasExp, expNeg, expDigits, cs4) :=
        match cs3 with
        | 'e' :: '-' :: rest => (true, true, rest.takeWhile Char.isDigit, rest.dropWhile Char.isDigit)
        | 'e' :: '+' :: rest => (true, false, rest.takeWhile Char.isDigit, rest.dropWhile Char.isDigit)
        | 'e' :: rest => (true, false, rest.takeWhile Char.isDigit, rest.dropWhile Char.isDigit)
        | 'E' :: '-' :: rest => (true, true, rest.takeWhile Char.isDigit, rest.dropWhile Char.isDigit)
        | 'E' :: '+' :: rest => (true, false, rest.takeWhile Char.isDigit, rest.dropWhile Char.isDigit)
        | 'E' :: rest => (true, false, rest.takeWhile Char.isDigit, rest.dropWhile Char.isDigit)
        | _ => (false, false, [], cs3)
      if hasExp ∧ expDigits.isEmpty then .error "Expecting value"
      else
        let mantissaNum : Int := intPart * (10 ^ fracDigits.length) + Int.ofNat (digitsToNat fracDigits)
        let mantissaNum := if negative then -mantissaNum else mantissaNum
        let mantissaDen : Nat := 10 ^ fracDigits.length
        if ¬ hasFrac ∧ ¬ hasExp then
          .ok (.int (if negative then -intPart else intPart), cs2)
        else
          let e := digitsToNat expDigits
          if expNeg then .ok (.float mantissaNum (mantissaDen * 10 ^ e), cs4)
          else .ok (.float (mantissaNum * (10 ^ e : Nat)) mantissaDen, cs4)

mutual

/-- Parse one JSON value. -/
def parseVal : Nat → List Char → Except String (PyVal × List Char)
  | 0, _ => .error "Expecting value"
  | fuel + 1, cs =>
    match skipWs cs with
    | [] => .error "Expecting value"
    | c :: rest =>
      if c = Char.ofNat 123 then
        match skipWs rest with
        | c2 :: rest2 =>
          if c2 = Char.ofNat 125 then .ok (.dict [], rest2)
          else parseMembers fuel (c2 :: rest2) []
        | [] => .error "Expecting property name enclosed in double quotes"
      else if c = '[' then
        match skipWs rest with
        | ']' :: rest2 => .ok (.list [], rest2)
        | other => parseItems fuel other []
      else if c = '"' then
        match parseStringRest [] rest with
        | .ok (s, rest2) => .ok (.str s, rest2)
        | .error e => .error e
      else if c = 't' then
        match rest with
        | 'r' :: 'u' :: 'e' :: rest2 => .ok (.bool true, rest2)
        | _ => .error "Expecting value"
      else if c = 'f' then
        match rest with
        | 'a' :: 'l' :: 's' :: 'e' :: rest2 => .ok (.bool false, rest2)
        | _ => .error "Expecting value"
      else if c = 'n' then
        match rest with
        | 'u' :: 'l' :: 'l' :: rest2 => .ok (.none, rest2)
        | _ => .error "Expecting value"
      else if c.isDigit || c = '-' then parseNumber (c :: rest)
      else .error "Expecting value"

/-- Parse the members of a JSON object (position: at a key or after a
comma).  Duplicate keys overwrite earlier ones (`dictSet`), as Python's
`dict(pairs)` construction does. -/
def parseMembers : Nat → List Char → List (String × PyVal) →
    Except String (PyVal × List Char)
  | 0, _, _ => .error "Expecting property name enclosed in double quotes"
  | fuel + 1, cs, acc =>
    match skipWs cs with
    | '"' :: rest =>
      match parseStringRest [] rest with
      | .error e => .error e
      | .ok (k, rest2) =>
        match skipWs rest2 with
        | ':' :: rest3 =>
          match parseVal fuel rest3 with
          | .error e => .error e
          | .ok (v, rest4) =>
            match skipWs rest4 with
            | ',' :: rest5 => parseMembers fuel rest5 (dictSet acc k v)
            | c :: rest5 =>
              if c = Char.ofNat 125 then .ok (.dict (dictSet acc k v), rest5)
              else .error "Expecting ',' delimiter"
            | [] => .error "Expecting ',' delimiter"
        | _ => .error "Expecting ':' delimiter"
    | _ => .error "Expecting property name enclosed in double quotes"

/-- Parse the items of a JSON array (position: at a value or after a
comma). -/
def parseItems : Nat → List Char → List PyVal → Except String (PyVal × List Char)
  | 0, _, _ => .error "Expecting value"
  | fuel + 1, cs, acc =>
    match parseVal fuel cs with
    | .error e => .error e
    | .ok (v, rest) =>
      match skipWs rest with
      | ',' :: rest2 => parseItems fuel rest2 (acc ++ [v])
      | ']' :: rest2 => .ok (.list (acc ++ [v]), rest2)
      | _ => .error "Expecting ',' delimiter"

end

/-- Embedding of `json.loads`: parse one value, then require only trailing
whitespace. -/
def json_loads (s : String) : Except String PyVal :=
  match parseVal (s.length + 1) s.data with
  | .error e => .error e
  | .ok (v, rest) =>
    match skipWs rest with
    | [] => .ok v
    | _ => .error "Extra data"

/-- JSON string-literal escaping as `json.dumps` performs it for the ASCII
strings this repository serializes. -/
def jsonEscapeChar (c : Char) : List Char :=
  if c = '"' then ['\\', '"']
  else if c = '\\' then ['\\', '\\']
  else if c = Char.ofNat 10 then ['\\', 'n']
  else if c = Char.ofNat 13 then ['\\', 'r']
  else if c = Char.ofNat 9 then ['\\', 't']
  else [c]

def jsonQuote (s : String) : String :=
  String.mk ('"' :: (s.data.map jsonEscapeChar).flatten ++ ['"'])

def spaces (n : Nat) : String := String.mk (List.replicate n ' ')

def insertPairSorted (kv : String × PyVal) : List (String × PyVal) → List (String × PyVal)
  | [] => [kv]
  | kv2 :: rest =>
    if strLe kv.1 kv2.1 then kv :: kv2 :: rest else kv2 :: insertPairSorted kv rest

/-- Sort a dict's entries by key (`sort_keys=True`). -/
def sortPairsByKey (kvs : List (String × PyVal)) : List (String × PyVal) :=
  kvs.foldr insertPairSorted []

/-- Embedding of `json.dumps(value, indent=2, sort_keys=True)`.  `lvl` is
the current nesting level; entries are separated by `",\n"`, keyed by
`": "`.  Recursion is fuelled by nesting depth (sorting the members of a
dict breaks structural recursion); `json_dumps` passes fuel far exceeding
the depth of any value the repository serializes, so the `0`-fuel fallback
is unreachable there.  (`PyVal.float` values never occur in the data this
repository serializes.) -/
def json_dumps_at : Nat → Nat → PyVal → String
  | _, _, .none => "null"
  | _, _, .bool b => if b then "true" else "false"
  | _, _, .int n => toString n
  | _, _, .float num den => toString num ++ "/" ++ toString den
  | _, _, .str s => jsonQuote s
  | 0, _, .list _ => ""
  | 0, _, .tuple _ => ""
  | 0, _, .dict _ => ""
  | fuel + 1, lvl, .list xs =>
    match xs with
    | [] => "[]"
    | _ =>
      "[" ++ String.mk [Char.ofNat 10] ++
        String.intercalate ("," ++ String.mk [Char.ofNat 10])
          (xs.map (fun v => spaces ((lvl + 1) * 2) ++ json_dumps_at fuel (lvl + 1) v)) ++
        String.mk [Char.ofNat 10] ++ spaces (lvl * 2) ++ "]"
  | fuel + 1, lvl, .tuple xs =>
    match xs with
    | [] => "[]"
    | _ =>
      "[" ++ String.mk [Char.ofNat 10] ++
        String.intercalate ("," ++ String.mk [Char.ofNat 10])
          (xs.map (fun v => spaces ((lvl + 1) * 2) ++ json_dumps_at fuel (lvl + 1) v)) ++
        String.mk [Char.ofNat 10] ++ spaces (lvl * 2) ++ "]"
  | fuel + 1, lvl, .dict kvs =>
    match kvs with
    | [] => String.mk [Char.ofNat 123, Char.ofNat 125]
    | _ =>
      String.mk [Char.ofNat 123, Char.ofNat 10] ++
        String.intercalate ("," ++ String.mk [Char.ofNat 10])
          ((sortPairsByKey kvs).map (fun kv =>
            spaces ((lvl + 1) * 2) ++ jsonQuote kv.1 ++ ": " ++
              json_dumps_at fuel (lvl + 1) kv.2)) ++
        String.mk [Char.ofNat 10] ++ spaces (lvl * 2) ++ String.mk [Char.ofNat 125]

def json_dumps (v : PyVal) : String := json_dumps_at 1000 0 v

/-!  ## Process environment and file system

`config.py` reads `sys.platform`, `os.environ`, the home directory, the
current working directory and the file system, and mutates one module
global, `_CACHED_RESULT`.  `Env` embeds the read-only inputs; `World` adds
the mutable file system (an association list of regular files and their
contents), a switch simulating `OSError` on writes, and the cache slot.
Paths are plain strings; `Path` construction performs no normalization
here (`joinPath` inserts a separator, as `Path.__truediv__` does for the
relative components this module joins).
-/

structure Env where
  platform : String
  home : String
  cwd : String
  environ : List (String × String)
  deriving Repr

def getenv (e : Env) (n : String) : Option String :=
  (e.environ.find? (fun kv => kv.1 == n)).map (fun kv => kv.2)

def joinPath (a b : String) : String := a ++ "/" ++ b

/-- `os.path.expanduser`: a leading `~` becomes the home directory.  (The
`~user` form resolves another user's home; no claim exercises it, so it is
left unexpanded here.) -/
def expanduser (e : Env) (p : String) : String :=
  if p = "~" then e.home
  else
    match p.data with
    | '~' :: '/' :: rest => e.home ++ String.mk ('/' :: rest)
    | _ => p

def isVarChar (c : Char) : Bool := c.isAlphanum || c = '_'

/-- `os.path.expandvars` (POSIX): substitute `$name` and `$\x7bname\x7d`
occurrences for set variables, leaving unset references and unterminated
braced references unchanged.  Fuelled by input length (each step consumes
at least one character). -/
def expandvarsLoop (e : Env) : Nat → List Char → List Char
  | 0, cs => cs
  | fuel + 1, cs =>
    match cs with
    | [] => []
    | c :: rest =>
      if c ≠ '$' then c :: expandvarsLoop e fuel rest
      else
        match rest with
        | [] => ['$']
        | d :: rest2 =>
          if d = Char.ofNat 123 then
            let nameCs := rest2.takeWhile (fun x => x ≠ Char.ofNat 125)
            match rest2.dropWhile (fun x => x ≠ Char.ofNat 125) with
            | [] => cs
            | _ :: rest3 =>
              (match getenv e (String.mk nameCs) with
               | some v => v.data
               | Option.none => '$' :: Char.ofNat 123 :: (nameCs ++ [Char.ofNat 125])) ++
                expandvarsLoop e fuel rest3
          else
            let nameCs := (d :: rest2).takeWhile isVarChar
            if nameCs.isEmpty then '$' :: expandvarsLoop e fuel rest
            else
              (match getenv e (String.mk nameCs) with
               | some v => v.data
               | Option.none => '$' :: nameCs) ++
                expandvarsLoop e fuel ((d :: rest2).dropWhile isVarChar)

def expandvars (e : Env) (s : String) : String :=
  String.mk (expandvarsLoop e (s.length + 1) s.data)

/-- Embedding of `_expand_path` (config.py lines 76-78):
`Path(os.path.expandvars(os.path.expanduser(raw)))`. -/
def _expand_path (e : Env) (raw : String) : String :=
  expandvars e (expanduser e raw)

/-- Embedding of `_env_config_path` (config.py lines 81-85):
`os.getenv("MEDIT_CONFIG") or os.getenv("MICROEDIT_CONFIG")`; a falsy
result (unset, or set to the empty string) means no override. -/
def _env_config_path (e : Env) : Option String :=
  let raw := pyOrStr (getenv e "MEDIT_CONFIG") (getenv e "MICROEDIT_CONFIG")
  match raw with
  | some s => if s = "" then Option.none else some (_expand_path e s)
  | Option.none => Option.none

/-- Embedding of `_user_config_dir` (config.py lines 60-73). -/
def _user_config_dir (e : Env) (app_name : String) : String :=
  if e.platform = "win32" then
    let base := pyOrStr (getenv e "APPDATA") (getenv e "LOCALAPPDATA")
    if truthyStr base then joinPath (base.getD "") app_name
    else joinPath (joinPath (joinPath e.home "AppData") "Roaming") app_name
  else if e.platform = "darwin" then
    joinPath (joinPath (joinPath e.home "Library") "Application Support") app_name
  else
    let base := getenv e "XDG_CONFIG_HOME"
    if truthyStr base then joinPath (base.getD "") app_name
    else joinPath (joinPath e.home ".config") app_name

/-- Embedding of `config_search_paths` (config.py lines 88-106). -/
def config_search_paths (e : Env) : List String :=
  [joinPath e.cwd "medit.json",
   joinPath e.cwd ".medit.json",
   joinPath (_user_config_dir e "medit") "config.json"]

/-- Embedding of `default_config_path` (config.py lines 109-110). -/
def default_config_path (e : Env) : String :=
  joinPath (_user_config_dir e "medit") "config.json"

/-- Embedding of `default_config_data` (config.py lines 113-114):
`asdict(MeditConfig())`, the default config as nested dicts. -/
def default_config_data : PyVal :=
  .dict (meditSchema.map (fun s =>
    (s.name, .dict (s.options.map (fun o => (o.name, o.dflt))))))

/-- Embedding of `default_config_text` (config.py lines 117-118):
`json.dumps(default_config_data(), indent=2, sort_keys=True) + "\n"`. -/
def default_config_text : String :=
  json_dumps default_config_data ++ String.mk [Char.ofNat 10]

structure World where
  env : Env
  files : List (String × String)
  writeErr : Option String
  cached : Option ConfigResult

/-- `Path.is_file()`: the path names a regular file. -/
def is_file (w : World) (p : String) : Bool :=
  ((w.files.find? (fun f => f.1 == p)).map (fun f => f.2)).isSome

def readFile (w : World) (p : String) : Option String :=
  (w.files.find? (fun f => f.1 == p)).map (fun f => f.2)

def setFileEntry (files : List (String × String)) (p content : String) :
    List (String × String) :=
  match files with
  | [] => [(p, content)]
  | f :: rest => if f.1 == p then (p, content) :: rest else f :: setFileEntry rest p content

/-- Embedding of `write_default_config` (config.py lines 121-123); `mkdir`
or `write_text` raising `OSError` is modelled by `World.writeErr`. -/
def write_default_config (w : World) (p : String) : Except String World :=
  match w.writeErr with
  | some m => .error m
  | Option.none => .ok { w with files := setFileEntry w.files p default_config_text }

/-- Embedding of `discover_config_path` (config.py lines 126-135): the env
override wins outright; otherwise the first existing regular file among the
search paths, scanned in order. -/
def discover_config_path (w : World) : Option String :=
  match _env_config_path w.env with
  | some p => some p
  | Option.none => (config_search_paths w.env).find? (fun p => is_file w p)

/-- Embedding of `_load_json` (config.py lines 138-143).  `json.load`
raising `json.JSONDecodeError` surfaces as `PyError.jsonDecodeError` — NOT
as `PyError.configError`; a non-dict root raises `ConfigError`. -/
def _load_json (w : World) (p : String) : Except PyError PyVal :=
  match readFile w p with
  | Option.none => .error (.osError ("No such file or directory: " ++ p))
  | some content =>
    match json_loads content with
    | .error m => .error (.jsonDecodeError m)
    | .ok v =>
      match v with
      | .dict _ => .ok v
      | _ => .error (.configError "JSON config root must be an object." (some p))

/-- ASCII lower-casing (`str.lower` restricted to the ASCII range, which
covers every suffix this module compares). -/
def charLower (c : Char) : Char :=
  if 65 ≤ c.toNat ∧ c.toNat ≤ 90 then Char.ofNat (c.toNat + 32) else c

def strToLower (s : String) : String := String.mk (s.data.map charLower)

/-- `PurePath.name`: the characters after the last `/`. -/
def lastComponent (p : String) : List Char :=
  p.data.foldl (fun acc c => if c = '/' then [] else acc ++ [c]) []

/-- `PurePath.suffix`: the final component's extension, empty for a leading
or trailing dot (pathlib: the last `.` at index `i` with `0 < i <
len(name) - 1`). -/
def pathSuffix (p : String) : String :=
  let name := lastComponent p
  let idxs := (name.enum.filter (fun ci => ci.2 = '.')).map (fun ci => ci.1)
  match idxs.getLast? with
  | some i =>
    if 0 < i ∧ i < name.length - 1 then String.mk (name.drop i) else ""
  | Option.none => ""

/-- An ASCII single-quote character, used in the unsupported-suffix
message. -/
def squote : String := String.mk [Char.ofNat 39]

/-- Embedding of `_load_raw_config` (config.py lines 146-152): reject any
path whose lower-cased suffix is not `.json`, else parse it as JSON. -/
def _load_raw_config (w : World) (p : String) : Except PyError PyVal :=
  let suffix := strToLower (pathSuffix p)
  if suffix ≠ ".json" then
    .error (.configError
      ("Unsupported config file type " ++ squote ++ pathSuffix p ++ squote ++ ". Use .json.")
      (some p))
  else _load_json w p

/-- Embedding of `load_config` (config.py lines 284-286). -/
def load_config (w : World) (p : String) : Except PyError ConfigResult :=
  match _load_raw_config w p with
  | .ok raw => validate_config meditSchema raw (some p)
  | .error e => .error e

/-!  ## Top-level resolution and cache (config.py lines 289-344)

`get_config_result` returns either a `ConfigResult` or — when the body
raises an exception that no `except` clause catches — `Except.error`.  The
returned `World` reflects the mutations performed: the module-global
`_CACHED_RESULT` assignment and any default-config write.  The only
exception class the load step catches is `ConfigError` (config.py line
327); anything else propagates to the caller and leaves the cache unset.
-/

def setCache (w : World) (r : ConfigResult) : World := { w with cached := some r }

/-- `try: _CACHED_RESULT = load_config(config_path); return _CACHED_RESULT
except ConfigError as exc: ...` (config.py lines 324-335).  The fallback
result's path is `exc.path or config_path`. -/
def loadPhase (w : World) (config_path : String) : Except PyError ConfigResult × World :=
  match load_config w config_path with
  | .ok r => (.ok r, setCache w r)
  | .error (.configError msg epath) =>
    let r : ConfigResult :=
      { config := defaultConfigObj,
        diagnostics := { path := some (epath.getD config_path), warnings := [],
                         error := some msg } }
    (.ok r, setCache w r)
  | .error e => (.error e, w)

/-- The no-config-found branch (config.py lines 308-322): try to write the
default config to the user config path; on `OSError`, degrade to defaults
with a diagnostic error. -/
def writePhase (w : World) : Except PyError ConfigResult × World :=
  let default_path := default_config_path w.env
  match write_default_config w default_path with
  | .ok w2 => loadPhase w2 default_path
  | .error m =>
    let r : ConfigResult :=
      { config := defaultConfigObj,
        diagnostics := { path := some default_path, warnings := [],
                         error := some ("Failed to create default config: " ++ m) } }
    (.ok r, setCache w r)

/-- `config_path = discover_config_path()` and the branch on `None`
(config.py lines 307-322 followed by 324-335). -/
def resolvePhase (w : World) : Except PyError ConfigResult × World :=
  match discover_config_path w with
  | some config_path => loadPhase w config_path
  | Option.none => writePhase w

/-- Embedding of `get_config_result` (config.py lines 289-335).  The cache
is consulted first; then the env-override-missing check; then discovery,
default-creation and loading.  When the env override is set and names an
existing regular file, `discover_config_path` returns exactly that path,
which is why the fall-through goes to `resolvePhase` unchanged. -/
def get_config_result (w : World) : Except PyError ConfigResult × World :=
  match w.cached with
  | some r => (.ok r, w)
  | Option.none =>
    match _env_config_path w.env with
    | some env_path =>
      if is_file w env_path then resolvePhase w
      else
        let r : ConfigResult :=
          { config := defaultConfigObj,
            diagnostics := { path := some env_path, warnings := [],
                             error := some ("Config file from $MEDIT_CONFIG not found: "
                               ++ env_path) } }
        (.ok r, setCache w r)
    | Option.none => resolvePhase w

/-- Embedding of `get_config` (config.py lines 338-339). -/
def get_config (w : World) : Except PyError (List (String × List (String × PyVal))) × World :=
  match get_config_result w with
  | (.ok r, w2) => (.ok r.config, w2)
  | (.error e, w2) => (.error e, w2)

/-- Embedding of `clear_config_cache` (config.py lines 342-344). -/
def clear_config_cache (w : World) : World := { w with cached := Option.none }

/-!  ## Concrete environments and worlds used by the theorems -/

def linuxEnv : Env :=
  { platform := "linux", home := "/home/u", cwd := "/proj", environ := [] }

/-- A world whose project config file holds text that is not valid JSON. -/
def jsonBugWorld : World :=
  { env := linuxEnv,
    files := [("/proj/medit.json", "\x7bnot json")],
    writeErr := Option.none, cached := Option.none }

/-- A world with `MEDIT_CONFIG` pointing at a path that is not a file. -/
def envMissingWorld : World :=
  { env := { platform := "linux", home := "/home/u", cwd := "/proj",
             environ := [("MEDIT_CONFIG", "/does/not/exist")] },
    files := [("/proj/medit.json", "\x7b\x7d")],
    writeErr := Option.none, cached := Option.none }

/-- A world with only the second search candidate (`./.medit.json`)
present. -/
def dotfileWorld : World :=
  { env := linuxEnv,
    files := [("/proj/.medit.json", "\x7b\x7d")],
    writeErr := Option.none, cached := Option.none }

/-- A world whose project config file is the empty JSON object. -/
def emptyObjWorld : World :=
  { env := linuxEnv,
    files := [("/proj/medit.json", "\x7b\x7d")],
    writeErr := Option.none, cached := Option.none }

/-- A world holding a config file with an upper-case `.JSON` suffix. -/
def upperSuffixWorld : World :=
  { env := linuxEnv,
    files := [("/etc/conf.JSON", "\x7b\x7d")],
    writeErr := Option.none, cached := Option.none }

/-- The `ConfigResult` produced when the env override names a missing
file. -/
def envMissingResult (p : String) : ConfigResult :=
  { config := defaultConfigObj,
    diagnostics := { path := some p, warnings := [],
                     error := some ("Config file from $MEDIT_CONFIG not found: " ++ p) } }

/-- Spec-side statement of "the keys not present in the schema, sorted":
the unknown keys of a mapping relative to an allowed-name list. -/
def unknownKeysIn (allowed : List String) (kvs : List (String × PyVal)) : List String :=
  sortedDedup ((pyKeys kvs).filter (fun k => !(allowed.contains k)))

/-- Spec-side statement of the warning a non-empty unknown-key list
produces: its sorted members comma-joined after the given heading. -/
def warnList (heading : String) (unknown : List String) : List String :=
  if unknown.isEmpty then [] else [heading ++ String.intercalate ", " unknown]

/-- The effective sub-mapping a section contributes, mirroring the section
fetch of config.py lines 220-227: an absent key or a `null` value act as
the empty mapping, a dict is taken as-is, and any other shape (the
hard-error "must be a table/object" case) yields `none`. -/
def effectiveSection (rdata : List (String × PyVal)) (name : String) :
    Option (List (String × PyVal)) :=
  match pyGetD rdata name (.dict []) with
  | .none => some []
  | .dict kvs => some kvs
  | _ => Option.none

/-- The result of a first successful `get_config_result` call on
`emptyObjWorld`. -/
def emptyObjResult : ConfigResult :=
  { config := defaultConfigObj,
    diagnostics := { path := some "/proj/medit.json", warnings := [],
                     error := Option.none } }

/-- The world after that first call: the cache holds `emptyObjResult`. -/
def emptyObjWorldAfter : World := setCache emptyObjWorld emptyObjResult

/-!  ## Theorems -/

theorem loadPhase_ok_cached (w : World) (cp : String) (r : ConfigResult) (w' : World)
    (h : loadPhase w cp = (.ok r, w')) : w'.cached = some r := by
  unfold loadPhase at h
  cases hl : load_config w cp with
  | ok r2 =>
    rw [hl] at h
    simp only [Prod.mk.injEq, Except.ok.injEq] at h
    obtain ⟨h1, h2⟩ := h
    rw [← h2, ← h1]
    rfl
  | error e =>
    rw [hl] at h
    cases e with
    | configError msg epath =>
      simp only [Prod.mk.injEq, Except.ok.injEq] at h
      obtain ⟨h1, h2⟩ := h
      rw [← h2, ← h1]
      rfl
    | valueError m => simp at h
    | jsonDecodeError m => simp at h
    | osError m => simp at h

theorem writePhase_ok_cached (w : World) (r : ConfigResult) (w' : World)
    (h : writePhase w = (.ok r, w')) : w'.cached = some r := by
  simp only [writePhase] at h
  cases hw : write_default_config w (default_config_path w.env) with
  | ok w2 =>
    rw [hw] at h
    exact loadPhase_ok_cached w2 (default_config_path w.env) r w' h
  | error m =>
    rw [hw] at h
    simp only [Prod.mk.injEq, Except.ok.injEq] at h
    obtain ⟨h1, h2⟩ := h
    rw [← h2, ← h1]
    rfl

theorem resolvePhase_ok_cached (w : World) (r : ConfigResult) (w' : World)
    (h : resolvePhase w = (.ok r, w')) : w'.cached = some r := by
  unfold resolvePhase at h
  cases hd : discover_config_path w with
  | some cp =>
    rw [hd] at h
    exact loadPhase_ok_cached w cp r w' h
  | none =>
    rw [hd] at h
    exact writePhase_ok_cached w r w' h

theorem get_config_result_ok_cached (w : World) (r : ConfigResult) (w' : World)
    (h : get_config_result w = (.ok r, w')) : w'.cached = some r := by
  unfold get_config_result at h
  split at h
  next r0 hc =>
    simp only [Prod.mk.injEq, Except.ok.injEq] at h
    obtain ⟨h1, h2⟩ := h
    rw [← h2, hc, h1]
  next hc =>
    split at h
    next p he =>
      split at h
      · exact resolvePhase_ok_cached w r w' h
      · simp only [Prod.mk.injEq, Except.ok.injEq] at h
        obtain ⟨h1, h2⟩ := h
        rw [← h2, ← h1]
        rfl
    next he => exact resolvePhase_ok_cached w r w' h

/-- Claim C9: cache idempotence.  Once `get_config_result()` has returned a
`ConfigResult`, any later call with no intervening `clear_config_cache()`
returns that identical cached result, no matter how the underlying files
have changed in between: the second call touches neither the environment
nor the file system. -/
theorem get_config_result_cache_idempotent (w w' : World) (r : ConfigResult)
    (fs : List (String × String))
    (h : get_config_result w = (.ok r, w')) :
    get_config_result { w' with files := fs } = (.ok r, { w' with files := fs }) := by
  have hc := get_config_result_ok_cached w r w' h
  unfold get_config_result
  simp [hc]


/-- Witness for C9: a concrete first call (project file holding the empty
JSON object), then a second call after the underlying file has been
replaced by broken JSON; the cached result is returned untouched. -/
theorem get_config_result_cache_idempotent_witness :
    get_config_result { emptyObjWorldAfter with
        files := [("/proj/medit.json", "\x7bbroken")] } =
      (.ok emptyObjResult,
       { emptyObjWorldAfter with files := [("/proj/medit.json", "\x7bbroken")] }) :=
  get_config_result_cache_idempotent emptyObjWorld emptyObjWorldAfter emptyObjResult
    [("/proj/medit.json", "\x7bbroken")] rfl

/-- Claim C1 (code bug): when a discovered config file's content does not
parse as JSON, `get_config_result` does NOT return a default
`ConfigResult` with a diagnostic error — the `json.JSONDecodeError` raised
by `json.load` inside `_load_json` is a `ValueError`, not a `ConfigError`,
and `get_config_result` catches only `ConfigError`, so the exception
propagates out of `get_config_result`, contrary to the claim.  Concretely:
no env override, `./medit.json` exists and holds `\x7bnot json`; discovery
finds the file, parsing fails, and the call surfaces the uncaught
`jsonDecodeError` instead of a `ConfigResult`. -/
theorem get_config_result_propagates_json_decode_error :
    discover_config_path jsonBugWorld = some "/proj/medit.json" ∧
    json_loads "\x7bnot json" =
      .error "Expecting property name enclosed in double quotes" ∧
    (get_config_result jsonBugWorld).1 =
      .error (.jsonDecodeError "Expecting property name enclosed in double quotes") ∧
    (get_config_result jsonBugWorld).2.cached = Option.none :=
  ⟨rfl, rfl, rfl, rfl⟩

/-- Claim C2: round-trip.  `default_config_text()` parsed as JSON yields
`default_config_data()`, and feeding that mapping through `validate_config`
yields exactly the all-defaults config with no warnings and no error. -/
theorem default_config_text_round_trip :
    json_loads default_config_text = .ok default_config_data ∧
    validate_config meditSchema default_config_data Option.none =
      .ok { config := defaultConfigObj,
            diagnostics := { path := Option.none, warnings := [],
                             error := Option.none } } :=
  ⟨rfl, rfl⟩

/-- Claim C5 (Scenario C): validating `\x7b"commands": \x7b"separator": ""\x7d\x7d`
fails with a config error whose message is exactly
"Command separator must not be empty." (the separator field's
`allow_empty=False` constraint), carrying the source path. -/
theorem empty_separator_rejected :
    validate_config meditSchema
      (.dict [("commands", .dict [("separator", .str "")])])
      (some "./medit.json") =
      .error (.configError "Command separator must not be empty."
        (some "./medit.json")) :=
  rfl

/-- Claim C7: when the environment override (`MEDIT_CONFIG` or
`MICROEDIT_CONFIG`) is set but its expanded path is not a regular file,
`get_config_result` returns the pure-default config with a diagnostics
error naming the missing path, without raising and without consulting the
other search paths — the result is the same for every file system
satisfying the hypotheses. -/
theorem env_override_missing_gives_defaults (w : World) (p : String)
    (hcache : w.cached = Option.none)
    (henv : _env_config_path w.env = some p)
    (hfile : is_file w p = false) :
    get_config_result w = (.ok (envMissingResult p), setCache w (envMissingResult p)) := by
  unfold get_config_result
  rw [hcache, henv]
  simp [hfile, envMissingResult]

/-- Witness for C7: `MEDIT_CONFIG=/does/not/exist` with a perfectly good
project config file on disk; the env override still wins and produces the
default config plus the missing-path error. -/
theorem env_override_missing_gives_defaults_witness :
    get_config_result envMissingWorld =
      (.ok (envMissingResult "/does/not/exist"),
       setCache envMissingWorld (envMissingResult "/does/not/exist")) :=
  env_override_missing_gives_defaults envMissingWorld "/does/not/exist" rfl rfl rfl

/-- Claim C8: integer validation rejects booleans.  `validate_int` fails
with "... must be an integer." on every boolean input regardless of label
and bounds, and `_validate_like_default` raises a hard config error when
an option whose default is an integer receives a boolean — even though
booleans are a subtype of integers in Python (`isinstance(value, bool)` is
checked explicitly in both places). -/
theorem int_validation_rejects_booleans :
    (∀ (label : Option String) (mn mx : Option Int) (b : Bool) (d : PyVal)
        (p : Option String) (fn : String),
      validate_int label mn mx (.bool b) d p fn =
        .error (.valueError (displayOf label fn ++ " must be an integer."))) ∧
    (∀ (b : Bool) (n : Int) (p : Option String) (fn : String),
      _validate_like_default (.bool b) (.int n) p fn =
        .error (.configError (fn ++ " must be an integer.") p)) :=
  ⟨fun _ _ _ _ _ _ _ => rfl, fun _ _ _ _ => rfl⟩

/-- Claim C10: the extension check in the load path is case-insensitive.
`_load_raw_config` rejects a path with the "Unsupported config file type"
error exactly when the lower-cased suffix differs from `.json`; when the
lower-cased suffix is `.json` (so also for `.JSON` or `.Json`), it
proceeds to JSON parsing (`_load_json`). -/
theorem load_raw_config_suffix_case_insensitive (w : World) (p : String) :
    (strToLower (pathSuffix p) ≠ ".json" →
      _load_raw_config w p = .error (.configError
        ("Unsupported config file type " ++ squote ++ pathSuffix p ++ squote ++
          ". Use .json.") (some p))) ∧
    (strToLower (pathSuffix p) = ".json" →
      _load_raw_config w p = _load_json w p) := by
  constructor
  · intro h
    simp [_load_raw_config, h]
  · intro h
    simp [_load_raw_config, h]

/-- Witness for C10: a path ending in upper-case `.JSON` is accepted and
proceeds to JSON parsing. -/
theorem load_raw_config_suffix_case_insensitive_witness :
    strToLower (pathSuffix "/etc/conf.JSON") = ".json" ∧
    _load_raw_config upperSuffixWorld "/etc/conf.JSON" =
      _load_json upperSuffixWorld "/etc/conf.JSON" :=
  ⟨rfl, (load_raw_config_suffix_case_insensitive upperSuffixWorld "/etc/conf.JSON").2 rfl⟩

/-- Claim C6: with no environment override, discovery scans exactly
`./medit.json`, `./.medit.json`, `<user-config-dir>/config.json` in that
order and returns the first existing regular file (`none` if none exist);
and the result depends only on which paths are regular files — file
contents never influence it. -/
theorem discovery_scan_order (w : World)
    (henv : _env_config_path w.env = Option.none) :
    config_search_paths w.env =
      [joinPath w.env.cwd "medit.json", joinPath w.env.cwd ".medit.json",
       joinPath (_user_config_dir w.env "medit") "config.json"] ∧
    discover_config_path w =
      (if is_file w (joinPath w.env.cwd "medit.json") then
        some (joinPath w.env.cwd "medit.json")
       else if is_file w (joinPath w.env.cwd ".medit.json") then
        some (joinPath w.env.cwd ".medit.json")
       else if is_file w (joinPath (_user_config_dir w.env "medit") "config.json") then
        some (joinPath (_user_config_dir w.env "medit") "config.json")
       else Option.none) ∧
    (∀ w2 : World, w2.env = w.env → (∀ q, is_file w2 q = is_file w q) →
      discover_config_path w2 = discover_config_path w) := by
  refine ⟨rfl, ?_, ?_⟩
  · cases h1 : is_file w (joinPath w.env.cwd "medit.json") <;>
      cases h2 : is_file w (joinPath w.env.cwd ".medit.json") <;>
        cases h3 : is_file w (joinPath (_user_config_dir w.env "medit") "config.json") <;>
          simp [discover_config_path, henv, config_search_paths, List.find?, h1, h2, h3]
  · intro w2 he hf
    simp [discover_config_path, he, henv, config_search_paths, hf]

/-- Witness for C6: only `./.medit.json` exists; the scan skips the absent
first candidate and returns the dotfile path. -/
theorem discovery_scan_order_witness :
    discover_config_path dotfileWorld = some "/proj/.medit.json" :=
  ((discovery_scan_order dotfileWorld rfl).2.1).trans rfl

/-- Claim C3, counterexample to the claim as stated: the claim asserts the
wrapped `ConfigError` message is "tagged with the dotted `section.option`
field name", but the wrapping (`raise ConfigError(str(exc), path=path)`)
reuses the validator's own message verbatim, and the separator validator
was constructed with the explicit label "Command separator" — so the
resulting message does not contain `commands.separator` at all. -/
theorem dotted_field_name_not_in_message :
    validate_config meditSchema
      (.dict [("commands", .dict [("separator", .str "")])])
      (some "/proj/medit.json") =
      .error (.configError "Command separator must not be empty."
        (some "/proj/medit.json")) ∧
    strContains "Command separator must not be empty." "commands.separator" = false :=
  ⟨rfl, rfl⟩

/-- Claim C3 (amended): a `ValueError` raised by a validator during
`validate_config` becomes a hard `ConfigError` whose message is exactly the
validator's own message and which carries the source path; the validator
receives the dotted `section.option` name as its `field_name` (whether the
message mentions it is up to the validator — the repository's separator
field passes an explicit label instead).  Validators are applied in
declared order, each receiving the previous one's output, the first
receiving the raw value (or the schema default when the key is absent). -/
theorem validator_value_error_becomes_config_error :
    (∀ (rdata sdata : List (String × PyVal)) (path : Option String) (m : String),
      pyGet rdata "commands" = some (.dict sdata) →
      separatorValidator (pyGetD sdata "separator" (.str ",")) (.str ",") path
          "commands.separator" = .error (.valueError m) →
      validate_config meditSchema (.dict rdata) path = .error (.configError m path)) ∧
    (∀ (vs1 vs2 : List FieldValidator) (v v' d : PyVal) (p : Option String) (fn : String),
      applyValidators vs1 v d p fn = .ok v' →
      applyValidators (vs1 ++ vs2) v d p fn = applyValidators vs2 v' d p fn) := by
  constructor
  · intro rdata sdata path m h1 h2
    have hfn : ("commands" ++ "." ++ "separator" : String) = "commands.separator" := rfl
    simp only [pyGetD] at h2
    simp [validate_config, meditSchema, buildSections, validateSection, pyGetD, h1,
          buildOptions, resolveOption, fieldValidatorsOf, applyValidators, hfn, h2]
  · intro vs1
    induction vs1 with
    | nil =>
      intro vs2 v v' d p fn h
      simp [applyValidators] at h
      subst h
      simp
    | cons a rest ih =>
      intro vs2 v v' d p fn h
      simp only [applyValidators, List.cons_append] at h ⊢
      cases ha : a v d p fn with
      | ok v2 =>
        rw [ha] at h
        exact ih vs2 v2 v' d p fn h
      | error e =>
        rw [ha] at h
        cases e <;> simp at h

/-- Witness for C3 (amended): a separator containing a newline triggers the
validator's value error; `validate_config` surfaces exactly that message as
a `ConfigError` carrying the path.  And a two-validator chain first runs
the first validator, threading its output into the rest of the chain. -/
theorem validator_value_error_becomes_config_error_witness :
    validate_config meditSchema
      (.dict [("commands",
        .dict [("separator", .str (String.mk ['a', Char.ofNat 10, 'b']))])])
      (some "proj.json") =
      .error (.configError "Command separator must not contain newlines."
        (some "proj.json")) ∧
    applyValidators ([separatorValidator] ++ [separatorValidator]) (.str ";")
        (.str ",") Option.none "commands.separator" =
      applyValidators [separatorValidator] (.str ";") (.str ",") Option.none
        "commands.separator" :=
  ⟨validator_value_error_becomes_config_error.1
      [("commands", .dict [("separator", .str (String.mk ['a', Char.ofNat 10, 'b']))])]
      [("separator", .str (String.mk ['a', Char.ofNat 10, 'b']))]
      (some "proj.json") "Command separator must not contain newlines." rfl rfl,
   validator_value_error_becomes_config_error.2 [separatorValidator] [separatorValidator]
      (.str ";") (.str ";") (.str ",") Option.none "commands.separator" rfl⟩

/-- Claim C4, counterexample to the claim as stated: the claim asserts
validation succeeds for EVERY input mapping containing unknown keys, but an
input can carry an unknown key and still fail on a declared option's value:
`\x7b"commands": \x7b"separator": "", "extra": 1\x7d\x7d` has the unknown
section key `extra` (declared nowhere in the schema), yet `validate_config`
raises the separator's validation error instead of succeeding. -/
theorem unknown_keys_do_not_guarantee_success :
    "extra" ∈ pyKeys [("separator", PyVal.str ""), ("extra", PyVal.int 1)] ∧
    ((meditSchema.map (fun s => s.options.map (fun o => o.name))).flatten).contains
      "extra" = false ∧
    (meditSchema.map (fun s => s.name)).contains "extra" = false ∧
    validate_config meditSchema
      (.dict [("commands", .dict [("separator", .str ""), ("extra", .int 1)])])
      Option.none =
      .error (.configError "Command separator must not be empty." Option.none) :=
  ⟨by simp [pyKeys], rfl, rfl, rfl⟩

/-- Claim C4 (amended): unknown keys never cause failure by themselves —
for every input whose declared sections are well-shaped (each section's
value a mapping, `null`, or absent) and whose declared option value
validates, `validate_config` succeeds and its warnings list the unknown
keys (root- and section-level), each warning holding exactly those keys,
sorted and comma-joined; in particular Scenario D holds (see the
witness).  `sdata` here is the section's effective sub-mapping: the dict
itself when present, the empty mapping when the key is absent or `null`. -/
theorem unknown_keys_warned_and_validation_succeeds :
    ∀ (rdata sdata : List (String × PyVal)) (path : Option String) (v : PyVal),
      effectiveSection rdata "commands" = some sdata →
      applyValidators [separatorValidator] (pyGetD sdata "separator" (.str ","))
          (.str ",") path "commands.separator" = .ok v →
      validate_config meditSchema (.dict rdata) path = .ok
        { config := [("commands", [("separator", v)])],
          diagnostics :=
            { path := path,
              warnings :=
                warnList "Unknown top-level keys: "
                  (unknownKeysIn (meditSchema.map (fun s => s.name)) rdata) ++
                warnList "Unknown [commands] keys: "
                  (unknownKeysIn ["separator"] sdata),
              error := Option.none } } := by
  intro rdata sdata path v hsec h2
  have hfn : ("commands" ++ "." ++ "separator" : String) = "commands.separator" := rfl
  cases hg : pyGet rdata "commands" with
  | none =>
    have hsd : sdata = [] := by
      simp [effectiveSection, pyGetD, hg] at hsec
      exact hsec
    subst hsd
    have hv : v = PyVal.str "," := by
      have h3 : Except.ok (PyVal.str ",") = Except.ok v := h2
      injection h3 with hh
      exact hh.symm
    subst hv
    have hbs : buildSections rdata path meditSchema =
        .ok ([], [("commands", [("separator", PyVal.str ",")])]) := by
      simp only [buildSections, validateSection, pyGetD, meditSchema, hg]
      rfl
    simp [validate_config, hbs, warnList, unknownKeysIn, pyKeys,
          sortedDedup, sortStrings]
  | some sv =>
    cases sv with
    | none =>
      have hsd : sdata = [] := by
        simp [effectiveSection, pyGetD, hg] at hsec
        exact hsec
      subst hsd
      have hv : v = PyVal.str "," := by
        have h3 : Except.ok (PyVal.str ",") = Except.ok v := h2
        injection h3 with hh
        exact hh.symm
      subst hv
      have hbs : buildSections rdata path meditSchema =
          .ok ([], [("commands", [("separator", PyVal.str ",")])]) := by
        simp only [buildSections, validateSection, pyGetD, meditSchema, hg]
        rfl
      simp [validate_config, hbs, warnList, unknownKeysIn, pyKeys,
            sortedDedup, sortStrings]
    | dict kvs =>
      have hsd : kvs = sdata := by
        simp [effectiveSection, pyGetD, hg] at hsec
        exact hsec
      subst hsd
      simp only [applyValidators, pyGetD] at h2
      simp [validate_config, meditSchema, buildSections, validateSection, pyGetD, hg,
            buildOptions, resolveOption, fieldValidatorsOf, applyValidators, hfn, h2,
            warnList, unknownKeysIn, pyKeys]
    | bool b => simp [effectiveSection, pyGetD, hg] at hsec
    | int n => simp [effectiveSection, pyGetD, hg] at hsec
    | float a b => simp [effectiveSection, pyGetD, hg] at hsec
    | str s => simp [effectiveSection, pyGetD, hg] at hsec
    | list xs => simp [effectiveSection, pyGetD, hg] at hsec
    | tuple xs => simp [effectiveSection, pyGetD, hg] at hsec

/-- Witness for C4 (Scenario D and the section-absent / section-null
shapes): `\x7b"commands": \x7b"separator": ";", "extra": 1\x7d\x7d` resolves
the separator to `;` with the single warning "Unknown [commands] keys:
extra"; `\x7b"extra": 1\x7d` and `\x7b"commands": null, "extra": 1\x7d` keep
the default separator with the single warning "Unknown top-level keys:
extra". -/
theorem unknown_keys_warned_and_validation_succeeds_witness :
    validate_config meditSchema
      (.dict [("commands", .dict [("separator", .str ";"), ("extra", .int 1)])])
      Option.none =
      .ok { config := [("commands", [("separator", .str ";")])],
            diagnostics := { path := Option.none,
                             warnings := ["Unknown [commands] keys: extra"],
                             error := Option.none } } ∧
    validate_config meditSchema (.dict [("extra", .int 1)]) Option.none =
      .ok { config := [("commands", [("separator", .str ",")])],
            diagnostics := { path := Option.none,
                             warnings := ["Unknown top-level keys: extra"],
                             error := Option.none } } ∧
    validate_config meditSchema (.dict [("commands", .none), ("extra", .int 1)])
      Option.none =
      .ok { config := [("commands", [("separator", .str ",")])],
            diagnostics := { path := Option.none,
                             warnings := ["Unknown top-level keys: extra"],
                             error := Option.none } } :=
  ⟨unknown_keys_warned_and_validation_succeeds
      [("commands", .dict [("separator", .str ";"), ("extra", .int 1)])]
      [("separator", .str ";"), ("extra", .int 1)]
      Option.none (.str ";") rfl rfl,
   unknown_keys_warned_and_validation_succeeds
      [("extra", .int 1)] [] Option.none (.str ",") rfl rfl,
   unknown_keys_warned_and_validation_succeeds
      [("commands", .none), ("extra", .int 1)] [] Option.none (.str ",") rfl rfl⟩
